import Mathlib

/-!
Verification development for the signway gateway core: a shallow embedding of
`src/signing/signing_functions.rs` and `src/route_gateway.rs`.

Rust `String`/`str` values are modelled as Lean `String`; raw byte strings
(header values, HMAC keys, digests) are modelled as `List Nat` with each
element a byte. All definitions are executable; external collaborators
(secret store, body reader, URL/URI parsers of the `url`/`http` crates,
outbound HTTP client) enter as explicit parameters of the gateway.
-/

namespace Signway

/-! ### Byte-level primitives -/

/-- UTF-8 encoding of a single character (code point to bytes). -/
def utf8Bytes (c : Char) : List Nat :=
  let n := c.toNat
  if n < 128 then [n]
  else if n < 2048 then [192 + n / 64, 128 + n % 64]
  else if n < 65536 then [224 + n / 4096, 128 + n / 64 % 64, 128 + n % 64]
  else [240 + n / 262144, 128 + n / 4096 % 64, 128 + n / 64 % 64, 128 + n % 64]

/-- The UTF-8 bytes of a string (`str::as_bytes` in the source). -/
def strBytes (s : String) : List Nat := (s.data.map utf8Bytes).flatten

/-- Lowercase hex digit, as produced by `hex::encode`. -/
def hexDigitLower (n : Nat) : Char :=
  if n < 10 then Char.ofNat (48 + n) else Char.ofNat (87 + n)

/-- Uppercase hex digit, as produced by `percent_encoding`. -/
def hexDigitUpper (n : Nat) : Char :=
  if n < 10 then Char.ofNat (48 + n) else Char.ofNat (55 + n)

/-- `hex::encode`: lowercase hex of a byte string. -/
def hexEncode (bs : List Nat) : String :=
  ⟨(bs.map (fun b => [hexDigitLower (b / 16 % 16), hexDigitLower (b % 16)])).flatten⟩

/-- Value of a hex digit character, if it is one. -/
def hexVal (c : Char) : Option Nat :=
  if 48 ≤ c.toNat ∧ c.toNat ≤ 57 then some (c.toNat - 48)
  else if 97 ≤ c.toNat ∧ c.toNat ≤ 102 then some (c.toNat - 87)
  else if 65 ≤ c.toNat ∧ c.toNat ≤ 70 then some (c.toNat - 55)
  else none

/-! ### SHA-256 (the `sha2` crate collaborator), over byte lists -/

def M32 : Nat := 4294967296

def rotr32 (n x : Nat) : Nat := (x / 2 ^ n + x % 2 ^ n * 2 ^ (32 - n)) % M32

def shr32 (n x : Nat) : Nat := x / 2 ^ n

def not32 (x : Nat) : Nat := x ^^^ 4294967295

def bigSigma0 (x : Nat) : Nat := rotr32 2 x ^^^ rotr32 13 x ^^^ rotr32 22 x

def bigSigma1 (x : Nat) : Nat := rotr32 6 x ^^^ rotr32 11 x ^^^ rotr32 25 x

def smallSigma0 (x : Nat) : Nat := rotr32 7 x ^^^ rotr32 18 x ^^^ shr32 3 x

def smallSigma1 (x : Nat) : Nat := rotr32 17 x ^^^ rotr32 19 x ^^^ shr32 10 x

def chFn (x y z : Nat) : Nat := (x &&& y) ^^^ (not32 x &&& z)

def majFn (x y z : Nat) : Nat := (x &&& y) ^^^ (x &&& z) ^^^ (y &&& z)

/-- The 64 SHA-256 round constants (FIPS 180-4), in decimal. -/
def shaK : List Nat :=
  [1116352408, 1899447441, 3049323471, 3921009573, 961987163,
   1508970993, 2453635748, 2870763221, 3624381080, 310598401,
   607225278, 1426881987, 1925078388, 2162078206, 2614888103,
   3248222580, 3835390401, 4022224774, 264347078, 604807628,
   770255983, 1249150122, 1555081692, 1996064986, 2554220882,
   2821834349, 2952996808, 3210313671, 3336571891, 3584528711,
   113926993, 338241895, 666307205, 773529912, 1294757372,
   1396182291, 1695183700, 1986661051, 2177026350, 2456956037,
   2730485921, 2820302411, 3259730800, 3345764771, 3516065817,
   3600352804, 4094571909, 275423344, 430227734, 506948616,
   659060556, 883997877, 958139571, 1322822218, 1537002063,
   1747873779, 1955562222, 2024104815, 2227730452, 2361852424,
   2428436474, 2756734187, 3204031479, 3329325298]

/-- SHA-256 initial hash state (FIPS 180-4), in decimal. -/
def shaH0 : List Nat :=
  [1779033703, 3144134277, 1013904242, 2773480762, 1359893119,
   2600822924, 528734635, 1541459225]

/-- Big-endian bytes of a 32-bit word. -/
def be32 (n : Nat) : List Nat := [n / 16777216 % 256, n / 65536 % 256, n / 256 % 256, n % 256]

/-- Big-endian bytes of a 64-bit word. -/
def be64 (n : Nat) : List Nat := (List.range 8).map (fun i => n / 2 ^ (8 * (7 - i)) % 256)

/-- SHA-256 padding: append `0x80`, zero-fill to 56 mod 64, append bit length. -/
def sha256Pad (msg : List Nat) : List Nat :=
  msg ++ [128] ++ List.replicate ((120 - (msg.length + 1) % 64) % 64) 0 ++ be64 (8 * msg.length)

/-- Group bytes into big-endian 32-bit words. -/
def toWords32 : List Nat → List Nat
  | a :: b :: c :: d :: rest => (((a * 256 + b) * 256 + c) * 256 + d) :: toWords32 rest
  | _ => []

/-- One step of the SHA-256 message-schedule extension. -/
def scheduleStep (w : List Nat) : List Nat :=
  let n := w.length
  w ++ [(w.getD (n - 16) 0 + smallSigma0 (w.getD (n - 15) 0) + w.getD (n - 7) 0
         + smallSigma1 (w.getD (n - 2) 0)) % M32]

/-- Extend 16 message words to the 64-entry schedule. -/
def schedule (w : List Nat) : List Nat :=
  (List.range 48).foldl (fun acc _ => scheduleStep acc) w

/-- One SHA-256 compression round on the 8-word working state. -/
def compressStep (w : List Nat) (st : List Nat) (i : Nat) : List Nat :=
  match st with
  | [a, b, c, d, e, f, g, h] =>
    let t1 := (h + bigSigma1 e + chFn e f g + shaK.getD i 0 + w.getD i 0) % M32
    let t2 := (bigSigma0 a + majFn a b c) % M32
    [(t1 + t2) % M32, a, b, c, (d + t1) % M32, e, f, g]
  | st => st

/-- Compress one 64-byte chunk into the hash state. -/
def sha256Compress (h : List Nat) (chunk : List Nat) : List Nat :=
  let w := schedule (toWords32 chunk)
  let st := (List.range 64).foldl (compressStep w) h
  (h.zip st).map (fun p => (p.1 + p.2) % M32)

/-- Split into 64-byte chunks (fuel-indexed; fuel `≥` length suffices). -/
def chunks64 (fuel : Nat) (l : List Nat) : List (List Nat) :=
  match fuel, l with
  | _, [] => []
  | 0, _ => []
  | fuel + 1, l => l.take 64 :: chunks64 fuel (l.drop 64)

/-- SHA-256 digest (32 bytes) of a byte string. -/
def sha256 (msg : List Nat) : List Nat :=
  let padded := sha256Pad msg
  (((chunks64 padded.length padded).foldl sha256Compress shaH0).map be32).flatten

/-- HMAC-SHA256 (the `hmac` crate collaborator); accepts keys of any length. -/
def hmacSha256 (key msg : List Nat) : List Nat :=
  let k0 := if 64 < key.length then sha256 key else key
  let k := k0 ++ List.replicate (64 - k0.length) 0
  sha256 ((k.map (fun b => b ^^^ 92)) ++ sha256 ((k.map (fun b => b ^^^ 54)) ++ msg))

/-! ### Percent-encoding (the `percent_encoding` crate) -/

/-- The `CONTROLS` ascii set: C0 controls and DEL. -/
def inControls (b : Nat) : Bool := b < 32 || b == 127

/-- The `FRAGMENT` ascii set of `signing_functions.rs`: controls plus the
URL-reserved and URL-unsafe characters listed there. -/
def inFragment (b : Nat) : Bool :=
  inControls b ||
  [58, 63, 35, 91, 93, 64, 33, 36, 38, 39, 40, 41, 42, 43, 44, 59, 61,
   34, 32, 60, 62, 37, 123, 125, 124, 92, 94, 96].contains b

/-- The `FRAGMENT_SLASH` ascii set: `FRAGMENT` plus `/`. -/
def inFragmentSlash (b : Nat) : Bool := inFragment b || b == 47

/-- `percent_encoding` escapes a byte when it is non-ASCII or in the set. -/
def pctEncodeByte (inSet : Nat → Bool) (b : Nat) : List Char :=
  if 127 < b || inSet b then ['%', hexDigitUpper (b / 16 % 16), hexDigitUpper (b % 16)]
  else [Char.ofNat b]

/-- `utf8_percent_encode`: percent-encode the UTF-8 bytes of a string. -/
def utf8_percent_encode (inSet : Nat → Bool) (s : String) : String :=
  ⟨((strBytes s).map (pctEncodeByte inSet)).flatten⟩

/-- Value of a hex-digit byte (case-insensitive), if it is one. -/
def hexValB (b : Nat) : Option Nat :=
  if 48 ≤ b ∧ b ≤ 57 then some (b - 48)
  else if 97 ≤ b ∧ b ≤ 102 then some (b - 87)
  else if 65 ≤ b ∧ b ≤ 70 then some (b - 55)
  else none

/-- Fuel-indexed core of `percent_decode`; each step consumes at least one
byte, so fuel at least the list length suffices. -/
def percentDecodeAux : Nat → List Nat → List Nat
  | 0, l => l
  | _ + 1, [] => []
  | fuel + 1, c :: rest =>
    if c = 37 then
      match rest with
      | a :: b :: rest2 =>
        match hexValB a, hexValB b with
        | some x, some y => (16 * x + y) :: percentDecodeAux fuel rest2
        | _, _ => 37 :: percentDecodeAux fuel rest
      | _ => 37 :: percentDecodeAux fuel rest
    else c :: percentDecodeAux fuel rest

/-- `percent_decode`: replace each `%XY` (hex, either case) by its byte; an
invalid escape passes the `%` through and resumes at the next byte. -/
def percentDecodeBytes (l : List Nat) : List Nat := percentDecodeAux l.length l

/-! ### Lossy UTF-8 decoding (`decode_utf8_lossy` / `String::from_utf8_lossy`) -/

/-- The replacement character U+FFFD. -/
def replChar : Char := Char.ofNat 65533

/-- Is the byte a UTF-8 continuation byte. -/
def isCont (b : Nat) : Bool := 128 ≤ b && b < 192

/-- Allowed second byte after a given 3-byte leader (excludes overlong forms
and surrogates). -/
def cont2Ok (b c : Nat) : Bool :=
  if b = 224 then 160 ≤ c && c < 192
  else if b = 237 then 128 ≤ c && c < 160
  else isCont c

/-- Allowed second byte after a given 4-byte leader. -/
def cont3Ok (b c : Nat) : Bool :=
  if b = 240 then 144 ≤ c && c < 192
  else if b = 244 then 128 ≤ c && c < 144
  else isCont c

/-- Fuel-indexed lossy UTF-8 decoder; invalid sequences become U+FFFD. Fuel
at least the list length suffices (each step consumes at least one byte). -/
def utf8LossyAux : Nat → List Nat → List Char
  | 0, _ => []
  | _ + 1, [] => []
  | fuel + 1, b :: rest =>
    if b < 128 then Char.ofNat b :: utf8LossyAux fuel rest
    else if 194 ≤ b && b ≤ 223 then
      match rest with
      | c :: rest2 =>
        if isCont c then Char.ofNat ((b - 192) * 64 + (c - 128)) :: utf8LossyAux fuel rest2
        else replChar :: utf8LossyAux fuel rest
      | [] => [replChar]
    else if 224 ≤ b && b ≤ 239 then
      match rest with
      | c :: d :: rest2 =>
        if cont2Ok b c && isCont d then
          Char.ofNat ((b - 224) * 4096 + (c - 128) * 64 + (d - 128)) :: utf8LossyAux fuel rest2
        else replChar :: utf8LossyAux fuel rest
      | _ => [replChar]
    else if 240 ≤ b && b ≤ 244 then
      match rest with
      | c :: d :: e :: rest2 =>
        if cont3Ok b c && isCont d && isCont e then
          Char.ofNat ((b - 240) * 262144 + (c - 128) * 4096 + (d - 128) * 64 + (e - 128))
            :: utf8LossyAux fuel rest2
        else replChar :: utf8LossyAux fuel rest
      | _ => [replChar]
    else replChar :: utf8LossyAux fuel rest

/-- Lossy UTF-8 decoding of a byte string. -/
def decodeUtf8Lossy (bs : List Nat) : String := ⟨utf8LossyAux bs.length bs⟩

/-! ### String helpers over `String.data` (kernel-computable) -/

/-- ASCII lowercasing of one character. -/
def lowerChar (c : Char) : Char :=
  if 65 ≤ c.toNat && c.toNat ≤ 90 then Char.ofNat (c.toNat + 32) else c

/-- `str::to_lowercase` (header names are ASCII tokens). -/
def toLowerStr (s : String) : String := ⟨s.data.map lowerChar⟩

/-- Whitespace for `str::trim` (header values are visible ASCII plus tab). -/
def isWs (c : Char) : Bool := c = ' ' || c = '\t' || c = '\n' || c = '\r'

/-- `str::trim`: strip leading and trailing whitespace. -/
def trimStr (s : String) : String :=
  ⟨(((s.data.dropWhile isWs).reverse.dropWhile isWs).reverse)⟩

/-- `Vec::join`: interpose a separator between the elements. -/
def joinSep (sep : String) : List String → String
  | [] => ""
  | x :: xs => xs.foldl (fun acc y => acc ++ sep ++ y) x

/-! ### Ordering used by the Rust `sort()` calls: byte-lexicographic -/

/-- Byte order on Rust strings; on UTF-8, byte order coincides with code-point
order, so it is the `List Char` lexicographic order of the string data. -/
def strLe (a b : String) : Prop := a.data ≤ b.data

instance : DecidableRel strLe := fun a b => inferInstanceAs (Decidable (a.data ≤ b.data))

instance : IsTrans String strLe := ⟨fun _ _ _ h1 h2 => le_trans h1 h2⟩

instance : IsTotal String strLe := ⟨fun a b => le_total a.data b.data⟩

instance : IsAntisymm String strLe :=
  ⟨fun a b h1 h2 => by
    cases a; cases b
    exact congrArg String.mk (le_antisymm h1 h2)⟩

/-- `Ord` on Rust `(String, String)` tuples: lexicographic, byte order on
each component. -/
def pairLe (a b : String × String) : Prop :=
  a.1.data < b.1.data ∨ (a.1.data = b.1.data ∧ a.2.data ≤ b.2.data)

instance : DecidableRel pairLe := fun _a _b =>
  inferInstanceAs (Decidable (_ ∨ (_ ∧ _)))

instance : IsTrans (String × String) pairLe :=
  ⟨fun a b c h1 h2 => by
    rcases h1 with h1 | ⟨e1, l1⟩
    · rcases h2 with h2 | ⟨e2, l2⟩
      · exact Or.inl (lt_trans h1 h2)
      · exact Or.inl (e2 ▸ h1)
    · rcases h2 with h2 | ⟨e2, l2⟩
      · exact Or.inl (e1 ▸ h2)
      · exact Or.inr ⟨e1.trans e2, le_trans l1 l2⟩⟩

instance : IsTotal (String × String) pairLe :=
  ⟨fun a b => by
    rcases lt_trichotomy a.1.data b.1.data with h | h | h
    · exact Or.inl (Or.inl h)
    · rcases le_total a.2.data b.2.data with h2 | h2
      · exact Or.inl (Or.inr ⟨h, h2⟩)
      · exact Or.inr (Or.inr ⟨h.symm, h2⟩)
    · exact Or.inr (Or.inl h)⟩

instance : IsAntisymm (String × String) pairLe :=
  ⟨fun a b h1 h2 => by
    obtain ⟨a1, a2⟩ := a
    obtain ⟨b1, b2⟩ := b
    rcases h1 with h1 | ⟨e1, l1⟩
    · rcases h2 with h2 | ⟨e2, l2⟩
      · exact absurd h1 (lt_asymm h2)
      · exact absurd h1 (e2 ▸ lt_irrefl _)
    · rcases h2 with h2 | ⟨e2, l2⟩
      · exact absurd h2 (e1 ▸ lt_irrefl _)
      · cases a1; cases b1; cases a2; cases b2
        simp only at e1 l1 l2
        rw [congrArg String.mk e1, congrArg String.mk (le_antisymm l1 l2)]⟩

/-! ### URLs (the parsed form of the `url` crate's `Url`) -/

/-- A parsed absolute URL, by its components as the `url` crate exposes them:
`host()` carries no port, `port()` is `none` when absent or default for the
scheme, `path()` is the stored (percent-encoded) path, `rawQuery` the stored
query string.  -/
structure Url where
  scheme : String
  host : Option String
  port : Option Nat
  path : String
  rawQuery : Option String
deriving DecidableEq, Repr

/-- `Url::as_str`: the serialization. -/
def Url.asStr (u : Url) : String :=
  u.scheme ++ "://" ++ u.host.getD "" ++
    (match u.port with | none => "" | some p => ":" ++ Nat.repr p) ++
    u.path ++ (match u.rawQuery with | none => "" | some q => "?" ++ q)

/-- Split a character list at every occurrence of a separator. -/
def splitOnChar (sep : Char) : List Char → List (List Char)
  | [] => [[]]
  | c :: rest =>
    let r := splitOnChar sep rest
    if c = sep then [] :: r
    else
      match r with
      | x :: xs => (c :: x) :: xs
      | [] => [[c]]

/-- `form_urlencoded` decoding of one side of a pair: `+` becomes space, then
percent-decode, then lossy UTF-8. -/
def formDecode (l : List Char) : String :=
  decodeUtf8Lossy (percentDecodeBytes
    ((strBytes ⟨l⟩).map (fun b => if b = 43 then 32 else b)))

/-- One serialized query pair, split at the first `=` (absent `=` gives an
empty value). -/
def splitFirstEq (l : List Char) : List Char × List Char :=
  (l.takeWhile (fun c => c ≠ '='), (l.dropWhile (fun c => c ≠ '=')).drop 1)

/-- `Url::query_pairs`: split the raw query on `&`, skip empty segments,
percent-decode each side. -/
def queryPairsOf (raw : Option String) : List (String × String) :=
  match raw with
  | none => []
  | some q =>
    ((splitOnChar '&' q.data).filter (fun seg => ¬ seg.isEmpty)).map
      (fun seg => (formDecode (splitFirstEq seg).1, formDecode (splitFirstEq seg).2))

/-- The query pairs of a URL. -/
def Url.query_pairs (u : Url) : List (String × String) := queryPairsOf u.rawQuery

/-! ### Headers (hyper `HeaderMap`) -/

/-- A hyper `HeaderValue`: raw bytes. -/
abbrev HeaderValue := List Nat

/-- A hyper `HeaderMap`, as the name–value pairs its iterator yields. -/
abbrev HeaderMap := List (String × HeaderValue)

/-- `HeaderValue::to_str`: succeeds only when every byte is visible ASCII
(or space or tab); fails in particular on any non-UTF-8 byte. -/
def headerValueToStr (v : HeaderValue) : Option String :=
  if v.all (fun b => b = 9 || (32 ≤ b && b < 127)) then some ⟨v.map Char.ofNat⟩ else none

/-- First value stored under a (case-insensitive) header name. -/
def getHeader (headers : HeaderMap) (name : String) : Option HeaderValue :=
  (headers.find? (fun kv => toLowerStr kv.1 = name)).map (fun kv => kv.2)

/-- `HeaderMap::insert`: drop any previous values of the name, add the new
one. -/
def insertHeader (headers : HeaderMap) (name : String) (value : HeaderValue) : HeaderMap :=
  headers.filter (fun kv => toLowerStr kv.1 ≠ name) ++ [(name, value)]

/-! ### The canonicalizer (`signing_functions.rs`) -/

/-- `canonical_uri_string`: percent-decode the URL path (lossy UTF-8), then
re-encode it under `FRAGMENT`. -/
def canonical_uri_string (uri : Url) : String :=
  utf8_percent_encode inFragment (decodeUtf8Lossy (percentDecodeBytes (strBytes uri.path)))

/-- One formatted query pair `k=v`, both sides encoded under
`FRAGMENT_SLASH`. -/
def formatQueryPair (p : String × String) : String :=
  utf8_percent_encode inFragmentSlash p.1 ++ "=" ++ utf8_percent_encode inFragmentSlash p.2

/-- `canonical_query_string`: collect the decoded query pairs, sort them (the
Rust `sort()` on `(String, String)` tuples: byte-lexicographic by key then
value), format and join with `&`. -/
def canonical_query_string (uri : Url) : String :=
  joinSep "&" ((List.insertionSort pairLe uri.query_pairs).map formatQueryPair)

/-- `canonical_header_string`: one `lowercase(name):trim(value)` line per
header, sorted, joined with newlines.  The source unwraps
`HeaderValue::to_str`; `none` models the panic on a non-UTF-8 value. -/
def canonical_header_string (headers : HeaderMap) : Option String :=
  (headers.mapM (fun kv => (headerValueToStr kv.2).map
      (fun s => toLowerStr kv.1 ++ ":" ++ trimStr s))).map
    (fun keyvalues => joinSep "\n" (List.insertionSort strLe keyvalues))

/-- `signed_header_string`: lowercased header names, sorted, joined with
`;`. -/
def signed_header_string (headers : HeaderMap) : String :=
  joinSep ";" (List.insertionSort strLe (headers.map (fun kv => toLowerStr kv.1)))

/-- `canonical_request`: the seven-line canonical form
`method\nuri\nquery\nheaders\n\nsigned\nbody`; `none` when header
canonicalization panics. -/
def canonical_request (method : String) (url : Url) (headers : HeaderMap) (body : String) :
    Option String :=
  (canonical_header_string headers).map (fun chs =>
    method ++ "\n" ++ canonical_uri_string url ++ "\n" ++ canonical_query_string url ++ "\n"
      ++ chs ++ "\n\n" ++ signed_header_string headers ++ "\n" ++ body)

/-! ### Datetimes (the `time` crate formats used by the source) -/

/-- A `time::PrimitiveDateTime`, reduced to the fields the two format
descriptions read. -/
structure PrimitiveDateTime where
  year : Nat
  month : Nat
  day : Nat
  hour : Nat
  minute : Nat
  second : Nat
deriving DecidableEq, Repr

/-- Zero-pad to two digits. -/
def pad2 (n : Nat) : String := if n < 10 then "0" ++ Nat.repr n else Nat.repr n

/-- Zero-pad to four digits. -/
def pad4 (n : Nat) : String :=
  if n < 10 then "000" ++ Nat.repr n
  else if n < 100 then "00" ++ Nat.repr n
  else if n < 1000 then "0" ++ Nat.repr n
  else Nat.repr n

/-- The `SHORT_DATE` format `[year][month][day]`. -/
def formatShortDate (d : PrimitiveDateTime) : String :=
  pad4 d.year ++ pad2 d.month ++ pad2 d.day

/-- The `LONG_DATETIME` format `[year][month][day]T[hour][minute][second]Z`. -/
def formatLongDatetime (d : PrimitiveDateTime) : String :=
  formatShortDate d ++ "T" ++ pad2 d.hour ++ pad2 d.minute ++ pad2 d.second ++ "Z"

/-! ### Signing (`signing_functions.rs`) -/

/-- The `ALGORITHM` constant. -/
def ALGORITHM : String := "SUP1-HMAC-SHA256"

/-- `scope_string`: the signing day `YYYYMMDD`. -/
def scope_string (datetime : PrimitiveDateTime) : String := formatShortDate datetime

/-- `string_to_sign`: algorithm, long timestamp, scope and the hex SHA-256 of
the canonical request, newline-separated. -/
def string_to_sign (datetime : PrimitiveDateTime) (canonical_req : String) : String :=
  ALGORITHM ++ "\n" ++ formatLongDatetime datetime ++ "\n" ++ scope_string datetime ++ "\n"
    ++ hexEncode (sha256 (strBytes canonical_req))

/-- `signing_key`: HMAC-SHA256 keyed by `ALGORITHM ++ secret` over the short
date.  `Hmac::<Sha256>::new_from_slice` accepts keys of any length, so the
source's `?` never propagates an error and the result is always `ok`. -/
def signing_key (datetime : PrimitiveDateTime) (secret_key : String) : Except Unit (List Nat) :=
  .ok (hmacSha256 (strBytes (ALGORITHM ++ secret_key)) (strBytes (formatShortDate datetime)))

/-! ### The gateway (`route_gateway.rs`) -/

/-- The fields of `SignRequest` the gateway and the signer read. -/
structure SignRequest where
  method : String
  proxy_url : Url
  headers : HeaderMap
  body : Option String
  datetime : PrimitiveDateTime
deriving DecidableEq, Repr

/-- The fields of `SignatureInfo` the gateway reads; `expires` is carried by
the envelope but never read by the verifier. -/
structure SignatureInfo where
  id : String
  signature : String
  include_body : Bool
  expires : Nat
deriving DecidableEq, Repr

/-- An inbound hyper `Request`: its URL (opaque to the gateway itself, it is
consumed by the envelope parser), its headers and its body. -/
structure InboundRequest where
  uri : String
  headers : HeaderMap
  body : String
deriving DecidableEq, Repr

/-- The request handed to the outbound client: the rewritten URI, the headers
with `host` replaced, the body. -/
structure OutRequest where
  uri : String
  headers : HeaderMap
  body : String
deriving DecidableEq, Repr

/-- A hyper `Response`, reduced to status and body. -/
structure Response where
  status : Nat
  body : String
deriving DecidableEq, Repr

/-- The collaborators of the handler, all outside the two given source files:
the envelope parser, the secret store, the body reader, the `http::Uri`
parser, and the outbound client; plus the ambient wall clock, present only so
that clock-independence is statable — the handler never reads it. -/
structure Env where
  from_req : String → HeaderMap → Except Unit (SignRequest × SignatureInfo)
  get_secret : String → Except Unit (Option String)
  body_to_string : String → Nat → Except Unit String
  uriFromStr : String → Option String
  upstream : OutRequest → Except String Response
  now : Nat

/-- `bad_request()`: 400, empty body. -/
def bad_request : Response := ⟨400, ""⟩

/-- `internal_server(e)`: 500, empty body (the error is discarded). -/
def internal_server : Response := ⟨500, ""⟩

/-- `bad_gateway(e)`: 502, the error's description as body. -/
def bad_gateway (e : String) : Response := ⟨502, e⟩

/-- `usize::from_str`: optional `+` sign, at least one digit, value below
`2^64`. -/
def parseUsize (s : String) : Option Nat :=
  let ds := if s.data.headD ' ' = '+' then s.data.drop 1 else s.data
  if ds = [] then none
  else if ds.all (fun c => 48 ≤ c.toNat && c.toNat ≤ 57) then
    let n := ds.foldl (fun acc c => acc * 10 + (c.toNat - 48)) 0
    if n < 18446744073709551616 then some n else none
  else none

/-- `parse_content_length`: the `content-length` header must be present,
readable as a string, and parse as a `usize`. -/
def parse_content_length (req : InboundRequest) : Except Unit Nat :=
  match getHeader req.headers "content-length" with
  | none => .error ()
  | some v =>
    match headerValueToStr v with
    | none => .error ()
    | some s =>
      match parseUsize s with
      | none => .error ()
      | some n => .ok n

/-- Modelled from the spec: `UrlSigner::get_signature` (the `UrlSigner` type
lives in `src/signing/mod.rs`, which is not among the given sources).  Per
§4.2 the signature is the lowercase-hex HMAC-SHA256, keyed by the derived
signing key, of the string-to-sign over the canonical request; the canonical
body is the empty string when `body` is `None`.  `none` propagates the
canonicalization panic; the inner `Except` is the `Result` of
`signing_key`. -/
def get_signature (secret : String) (r : SignRequest) : Option (Except Unit String) :=
  match canonical_request r.method r.proxy_url r.headers (r.body.getD "") with
  | none => none
  | some cr =>
    match signing_key r.datetime secret with
    | .error e => some (.error e)
    | .ok key =>
      some (.ok (hexEncode (hmacSha256 key (strBytes (string_to_sign r.datetime cr)))))

/-- The signature `get_signature` yields when it does not panic. -/
def sigOf (secret : String) (r : SignRequest) : String :=
  match get_signature secret r with
  | some (.ok s) => s
  | _ => ""

/-- The body step of `route_gateway` (its `if info.include_body` block): read
`Content-Length`, buffer the body, attach it to the `SignRequest`, rebuild the
request; each failure is a 400. -/
def attach_body (env : Env) (req : InboundRequest) (to_sign : SignRequest)
    (info : SignatureInfo) : Except Response (SignRequest × InboundRequest) :=
  if info.include_body then
    match parse_content_length req with
    | .error _ => .error bad_request
    | .ok content_length =>
      match env.body_to_string req.body content_length with
      | .error _ => .error bad_request
      | .ok b => .ok ({to_sign with body := some b}, {req with body := b})
  else .ok (to_sign, req)

/-- Dispatch through the outbound client; the list records the dispatched
request. -/
def dispatch_step (env : Env) (out : OutRequest) : Response × List OutRequest :=
  match env.upstream out with
  | .ok a => (a, [out])
  | .error e => (bad_gateway e, [out])

/-- The rewritten upstream request: URI replaced by the parsed proxy URI,
`host` header overwritten with the proxy host, body kept. -/
def rewritten (req : InboundRequest) (host proxy_uri : String) : OutRequest :=
  ⟨proxy_uri, insertHeader req.headers "host" (strBytes host), req.body⟩

/-- The tail of `route_gateway` after the body step: extract the proxy host,
parse the proxy URI, rewrite the request (URI and `host` header), recompute
the signature, compare with the declared one, dispatch on equality.  `none`
models the canonicalization panic. -/
def verify_and_dispatch (env : Env) (req : InboundRequest) (to_sign : SignRequest)
    (info : SignatureInfo) (secret : String) : Option (Response × List OutRequest) :=
  match to_sign.proxy_url.host with
  | none => some (bad_request, [])
  | some host =>
    match env.uriFromStr to_sign.proxy_url.asStr with
    | none => some (bad_request, [])
    | some proxy_uri =>
      let out : OutRequest := rewritten req host proxy_uri
      match get_signature secret to_sign with
      | none => none
      | some (.error _) => some (internal_server, [])
      | some (.ok actual) =>
        if info.signature = actual then some (dispatch_step env out)
        else some (bad_request, [])

/-- `route_gateway`: parse the envelope, fetch the secret, settle the body,
then verify and dispatch.  The result records the response and the list of
dispatched upstream requests; `none` models a panic. -/
def route_gateway (env : Env) (req : InboundRequest) : Option (Response × List OutRequest) :=
  match env.from_req req.uri req.headers with
  | .error _ => some (bad_request, [])
  | .ok (to_sign, info) =>
    match env.get_secret info.id with
    | .error _ => some (internal_server, [])
    | .ok none => some (bad_request, [])
    | .ok (some secret) =>
      match attach_body env req to_sign info with
      | .error resp => some (resp, [])
      | .ok (to_sign2, req2) => verify_and_dispatch env req2 to_sign2 info secret

/-! ### Concrete fixtures used by witnesses and counterexamples -/

/-- The datetime `20230101T000000Z` of the spec's scenarios. -/
def dt0 : PrimitiveDateTime := ⟨2023, 1, 1, 0, 0, 0⟩

/-- The minimal proxy URL `https://h/p` of the golden vector. -/
def urlHP : Url := ⟨"https", some "h", none, "/p", none⟩

/-- A minimal `SignRequest` for the golden scenario. -/
def rtSign : SignRequest := ⟨"GET", urlHP, [], none, dt0⟩

/-- Envelope data declaring exactly the signer's signature for `rtSign`. -/
def rtInfo : SignatureInfo := ⟨"k1", sigOf "shh" rtSign, false, 300⟩

/-- Environment for the round-trip scenario: parser yields `rtSign`/`rtInfo`,
store knows secret `shh`, upstream answers 200. -/
def rtEnv : Env :=
  ⟨fun _ _ => .ok (rtSign, rtInfo), fun _ => .ok (some "shh"), fun b _ => .ok b,
   fun s => some s, fun _ => .ok ⟨200, "ok"⟩, 0⟩

/-- A plain inbound request. -/
def rtReq : InboundRequest := ⟨"inbound", [], ""⟩

/-- Replace only the ambient wall clock of the environment. -/
def withClock (env : Env) (t : Nat) : Env := {env with now := t}

/-- Replace only the declared expiry that the envelope parser reports. -/
def withExpires (env : Env) (e : Nat) : Env :=
  {env with from_req := fun u hs =>
    (env.from_req u hs).map (fun p => (p.1, {p.2 with expires := e}))}

/-- Parser behaviour for the panic scenario: the `SignRequest` signs the
inbound `x-evil` header, as `SignRequest::from_req` does for a header named
in `X-Sup-SignedHeaders`. -/
def evilEnv : Env :=
  ⟨fun _ hs =>
      .ok ({rtSign with headers := hs.filter (fun kv => toLowerStr kv.1 = "x-evil")}, rtInfo),
   fun _ => .ok (some "shh"), fun b _ => .ok b, fun s => some s,
   fun _ => .ok ⟨200, "ok"⟩, 0⟩

/-- An inbound request carrying a non-UTF-8 byte (0xFF) in a signed header
value. -/
def evilReq : InboundRequest := ⟨"inbound", [("x-evil", [255])], ""⟩

/-- Envelope data declaring a wrong signature for `rtSign`. -/
def mmInfo : SignatureInfo := ⟨"k1", "deadbeef", false, 300⟩

/-- Environment identical to `rtEnv` except for the declared signature. -/
def mmEnv : Env :=
  ⟨fun _ _ => .ok (rtSign, mmInfo), fun _ => .ok (some "shh"), fun b _ => .ok b,
   fun s => some s, fun _ => .ok ⟨200, "ok"⟩, 0⟩

/-- Forget the body of an upstream request (for body-independence
statements). -/
def eraseBody (o : OutRequest) : OutRequest := {o with body := ""}

/-- A proxy URL with an explicit port. -/
def urlPort : Url := ⟨"https", some "example.test", some 8443, "/x", none⟩

/-- A `SignRequest` towards the explicit-port proxy URL. -/
def portSign : SignRequest := ⟨"GET", urlPort, [], none, dt0⟩

/-- Envelope data declaring the signer's signature for `portSign`. -/
def portInfo : SignatureInfo := ⟨"k1", sigOf "shh" portSign, false, 300⟩

/-- Environment for the explicit-port scenario. -/
def portEnv : Env :=
  ⟨fun _ _ => .ok (portSign, portInfo), fun _ => .ok (some "shh"), fun b _ => .ok b,
   fun s => some s, fun _ => .ok ⟨200, "ok"⟩, 0⟩

/-- A URL whose query holds pairs in non-sorted order with a duplicate key. -/
def qUrlA : Url := ⟨"https", some "h", none, "/p", some "b=2&a=%2F1&a=1"⟩

/-- The same query pairs as `qUrlA`, permuted. -/
def qUrlB : Url := ⟨"https", some "h", none, "/p", some "a=1&b=2&a=%2F1"⟩

/-- An environment whose envelope parser rejects every request. -/
def noEnv : Env :=
  ⟨fun _ _ => .error (), fun _ => .ok none, fun b _ => .ok b,
   fun s => some s, fun _ => .ok ⟨200, "ok"⟩, 0⟩

end Signway

namespace Signway

/-! ### Shared helper lemmas -/

theorem strBytes_append (a b : String) : strBytes (a ++ b) = strBytes a ++ strBytes b := by
  cases a with
  | mk la =>
    cases b with
    | mk lb =>
      show strBytes ⟨la ++ lb⟩ = _
      simp [strBytes]

/-! ### Claim theorems -/

/-- Claim C4: `canonical_request` on method `GET`, URL `https://h/p`, an empty
header map and empty body yields exactly `GET\n/p\n\n\n\n\n` — six newlines:
after the method, the path, the empty query, the empty header block, the
blank line, and the empty signed-header line, before the empty body. -/
theorem canonical_request_golden_vector :
    canonical_request "GET" urlHP [] "" = some "GET\n/p\n\n\n\n\n" := by decide

/-- Claim C7: for every datetime and secret, `signing_key` is a single
HMAC-SHA256 step whose key is the byte concatenation of `SUP1-HMAC-SHA256`
and the secret and whose message is the `YYYYMMDD` day of the datetime. -/
theorem signing_key_single_hmac (d : PrimitiveDateTime) (s : String) :
    signing_key d s
      = .ok (hmacSha256 (strBytes "SUP1-HMAC-SHA256" ++ strBytes s)
          (strBytes (formatShortDate d))) := by
  unfold signing_key ALGORITHM
  rw [strBytes_append]

/-- Claim C8: the gateway outcome is independent of the ambient wall clock
and of the declared `X-Sup-Expires` value: running the handler with any other
clock value and any other parsed expiry yields the identical result, so no
freshness comparison occurs on the verification path. -/
theorem route_gateway_clock_and_expiry_independent (env : Env) (req : InboundRequest)
    (t e : Nat) :
    route_gateway (withClock (withExpires env e) t) req = route_gateway env req := by
  unfold route_gateway withClock withExpires
  cases h : env.from_req req.uri req.headers with
  | error u => simp [h, Except.map]
  | ok p =>
    obtain ⟨r, i⟩ := p
    simp only [h, Except.map]
    rfl

/-- Claim C3 (refuted): a signed header whose value holds the non-UTF-8 byte
`0xFF` does not fail the request with an error response — header
canonicalization hits the source's `value.to_str().unwrap()` and panics
(modelled as `none`), and the panic propagates out of `route_gateway`. -/
theorem canonical_header_panics_on_non_utf8 :
    canonical_header_string [("x-evil", [255])] = none
      ∧ route_gateway evilEnv evilReq = none := by decide

end Signway

namespace Signway

/-- String concatenation is associative. -/
theorem strAppend_assoc (a b c : String) : a ++ b ++ c = a ++ (b ++ c) := by
  cases a with
  | mk la =>
    cases b with
    | mk lb =>
      cases c with
      | mk lc =>
        show String.mk ((la ++ lb) ++ lc) = String.mk (la ++ (lb ++ lc))
        rw [List.append_assoc]

/-- `HeaderMap::insert` followed by a lookup of the same name finds exactly
the inserted value. -/
theorem getHeader_insertHeader (hs : HeaderMap) (v : HeaderValue) :
    getHeader (insertHeader hs "host" v) "host" = some v := by
  unfold getHeader insertHeader
  induction hs with
  | nil => rfl
  | cons kv rest ih =>
    by_cases hk : toLowerStr kv.1 = "host"
    · have h1 : decide (toLowerStr kv.1 ≠ "host") = false := by simp [hk]
      have e1 : List.filter (fun kv => decide (toLowerStr kv.1 ≠ "host")) (kv :: rest)
          = List.filter (fun kv => decide (toLowerStr kv.1 ≠ "host")) rest := by
        rw [List.filter_cons, h1]
        simp
      rw [e1]
      exact ih
    · have h1 : decide (toLowerStr kv.1 ≠ "host") = true := by simp [hk]
      have h2 : decide (toLowerStr kv.1 = "host") = false := by simp [hk]
      have e1 : List.filter (fun kv => decide (toLowerStr kv.1 ≠ "host")) (kv :: rest)
          = kv :: List.filter (fun kv => decide (toLowerStr kv.1 ≠ "host")) rest := by
        rw [List.filter_cons, h1]
        simp
      have e2 : List.find? (fun kv => decide (toLowerStr kv.1 = "host"))
            (kv :: (List.filter (fun kv => decide (toLowerStr kv.1 ≠ "host")) rest
              ++ [("host", v)]))
          = List.find? (fun kv => decide (toLowerStr kv.1 = "host"))
            (List.filter (fun kv => decide (toLowerStr kv.1 ≠ "host")) rest
              ++ [("host", v)]) := by
        rw [List.find?_cons, h2]
      rw [e1, List.cons_append, e2]
      exact ih

/-- Claim C1: round-trip acceptance — for a `SignRequest` and secret, when
the inbound envelope declares exactly the signature the signer computes over
that request and secret (`get_signature`, i.e. canonical request, string to
sign, per-day signing key, hex HMAC-SHA256), the gateway's verification
recomputes the identical string, the comparison succeeds, and the request is
dispatched. -/
theorem route_gateway_round_trip (env : Env) (req : InboundRequest)
    (r r2 : SignRequest) (info : SignatureInfo) (k : String) (req2 : InboundRequest)
    (host u : String)
    (hfr : env.from_req req.uri req.headers = .ok (r, info))
    (hsec : env.get_secret info.id = .ok (some k))
    (hab : attach_body env req r info = .ok (r2, req2))
    (hhost : r2.proxy_url.host = some host)
    (huri : env.uriFromStr r2.proxy_url.asStr = some u)
    (hsig : get_signature k r2 = some (.ok info.signature)) :
    route_gateway env req = some (dispatch_step env (rewritten req2 host u)) := by
  unfold route_gateway
  simp only [hfr, hsec, hab]
  unfold verify_and_dispatch
  simp only [hhost, huri, hsig, if_pos, if_true]

/-- Witness for C1: the concrete golden scenario (secret `shh`, principal
`k1`, proxy `https://h/p`) is accepted and dispatched. -/
theorem route_gateway_round_trip_witness :
    route_gateway rtEnv rtReq = some (dispatch_step rtEnv (rewritten rtReq "h" "https://h/p")) :=
  route_gateway_round_trip rtEnv rtReq rtSign rtSign rtInfo "shh" rtReq "h" "https://h/p"
    rfl rfl rfl rfl rfl rfl

/-- Claim C9: when the verified proxy URL carries an explicit port, the
dispatched request's URI is the parse of the full serialized proxy URL —
whose serialization contains `:port` — while the outgoing `host` header is
set to the bytes of the host component alone, the port omitted. -/
theorem host_header_strips_port (env : Env) (req : InboundRequest)
    (r r2 : SignRequest) (info : SignatureInfo) (k : String) (req2 : InboundRequest)
    (host u : String) (p : Nat)
    (hfr : env.from_req req.uri req.headers = .ok (r, info))
    (hsec : env.get_secret info.id = .ok (some k))
    (hab : attach_body env req r info = .ok (r2, req2))
    (hhost : r2.proxy_url.host = some host)
    (hport : r2.proxy_url.port = some p)
    (huri : env.uriFromStr r2.proxy_url.asStr = some u)
    (hsig : get_signature k r2 = some (.ok info.signature)) :
    route_gateway env req = some (dispatch_step env (rewritten req2 host u))
      ∧ (rewritten req2 host u).uri = u
      ∧ getHeader (rewritten req2 host u).headers "host" = some (strBytes host)
      ∧ r2.proxy_url.asStr
          = r2.proxy_url.scheme ++ ("://" ++ (host ++ ((":" ++ Nat.repr p)
              ++ (r2.proxy_url.path
                ++ (match r2.proxy_url.rawQuery with
                    | none => ""
                    | some q => "?" ++ q))))) := by
  refine ⟨?_, rfl, ?_, ?_⟩
  · unfold route_gateway
    simp only [hfr, hsec, hab]
    unfold verify_and_dispatch
    simp only [hhost, huri, hsig, if_pos, if_true]
  · exact getHeader_insertHeader req2.headers (strBytes host)
  · unfold Url.asStr
    rw [hhost, hport]
    simp only [Option.getD_some, strAppend_assoc]

/-- Witness for C9: the explicit-port scenario `https://example.test:8443/x`
dispatches with the full URL as URI and `example.test` (no port) as the
`host` header. -/
theorem host_header_strips_port_witness :
    (route_gateway portEnv rtReq
        = some (dispatch_step portEnv (rewritten rtReq "example.test" urlPort.asStr)))
      ∧ getHeader (rewritten rtReq "example.test" urlPort.asStr).headers "host"
        = some (strBytes "example.test") :=
  let h := host_header_strips_port portEnv rtReq portSign portSign portInfo "shh" rtReq
    "example.test" urlPort.asStr 8443 rfl rfl rfl rfl rfl rfl rfl
  ⟨h.1, h.2.2.1⟩

/-- Claim C2: verification precedes dispatch — any run that dispatched an
upstream request went through a successful signature comparison (the declared
signature is the recomputed one), and whenever the declared signature differs
from the recomputed one the handler answers 400 and dispatches nothing. -/
theorem verification_precedes_dispatch (env : Env) (req : InboundRequest) :
    (∀ resp log, route_gateway env req = some (resp, log) → log ≠ [] →
      ∃ r info k r2 req2,
        env.from_req req.uri req.headers = .ok (r, info)
          ∧ env.get_secret info.id = .ok (some k)
          ∧ attach_body env req r info = .ok (r2, req2)
          ∧ get_signature k r2 = some (.ok info.signature))
      ∧ (∀ r info k r2 req2 a,
          env.from_req req.uri req.headers = .ok (r, info) →
          env.get_secret info.id = .ok (some k) →
          attach_body env req r info = .ok (r2, req2) →
          get_signature k r2 = some (.ok a) → info.signature ≠ a →
          route_gateway env req = some (bad_request, [])) := by
  constructor
  · intro resp log hroute hlog
    unfold route_gateway at hroute
    cases hfr : env.from_req req.uri req.headers with
    | error e =>
      simp only [hfr] at hroute
      injection hroute with h1
      injection h1 with _ h2
      exact absurd h2.symm hlog
    | ok pr =>
      obtain ⟨r, info⟩ := pr
      simp only [hfr] at hroute
      cases hsec : env.get_secret info.id with
      | error e =>
        simp only [hsec] at hroute
        injection hroute with h1
        injection h1 with _ h2
        exact absurd h2.symm hlog
      | ok osec =>
        cases osec with
        | none =>
          simp only [hsec] at hroute
          injection hroute with h1
          injection h1 with _ h2
          exact absurd h2.symm hlog
        | some k =>
          simp only [hsec] at hroute
          cases hab : attach_body env req r info with
          | error resp2 =>
            simp only [hab] at hroute
            injection hroute with h1
            injection h1 with _ h2
            exact absurd h2.symm hlog
          | ok pr2 =>
            obtain ⟨r2, req2⟩ := pr2
            simp only [hab] at hroute
            unfold verify_and_dispatch at hroute
            cases hhost : r2.proxy_url.host with
            | none =>
              simp only [hhost] at hroute
              injection hroute with h1
              injection h1 with _ h2
              exact absurd h2.symm hlog
            | some host =>
              simp only [hhost] at hroute
              cases huri : env.uriFromStr r2.proxy_url.asStr with
              | none =>
                simp only [huri] at hroute
                injection hroute with h1
                injection h1 with _ h2
                exact absurd h2.symm hlog
              | some u =>
                simp only [huri] at hroute
                cases hsig : get_signature k r2 with
                | none =>
                  simp only [hsig] at hroute
                  exact Option.noConfusion hroute
                | some ex =>
                  cases ex with
                  | error e =>
                    simp only [hsig] at hroute
                    injection hroute with h1
                    injection h1 with _ h2
                    exact absurd h2.symm hlog
                  | ok a =>
                    simp only [hsig] at hroute
                    by_cases heq : info.signature = a
                    · exact ⟨r, info, k, r2, req2, rfl, hsec, hab, by rw [heq]; exact hsig⟩
                    · rw [if_neg heq] at hroute
                      injection hroute with h1
                      injection h1 with _ h2
                      exact absurd h2.symm hlog
  · intro r info k r2 req2 a hfr hsec hab hsig hne
    unfold route_gateway
    simp only [hfr, hsec, hab]
    unfold verify_and_dispatch
    cases hhost : r2.proxy_url.host with
    | none => rfl
    | some host =>
      cases huri : env.uriFromStr r2.proxy_url.asStr with
      | none => rfl
      | some u =>
        simp only [hsig]
        rw [if_neg hne]

set_option maxRecDepth 1000000 in
/-- Witness for C2: with declared signature `deadbeef` (differing from the
recomputed one) the concrete scenario is rejected with 400 and nothing is
dispatched. -/
theorem verification_precedes_dispatch_witness :
    route_gateway mmEnv rtReq = some (bad_request, []) :=
  (verification_precedes_dispatch mmEnv rtReq).2 rtSign mmInfo "shh" rtSign rtReq
    (sigOf "shh" rtSign) rfl rfl rfl rfl (by decide)

/-- Claim C6: the canonical query string lists the URL's percent-decoded
query pairs in byte-lexicographic `(key, value)` order, each side re-encoded
under `FRAGMENT_SLASH` and joined with `&`; it is invariant under any
permutation of the query pairs; the empty query yields the empty string; and
duplicate keys are preserved (the listed pairs are a permutation of the
parsed ones). -/
theorem canonical_query_string_sort_spec (u : Url) :
    (∃ L : List (String × String), L.Sorted pairLe ∧ L.Perm u.query_pairs ∧
        canonical_query_string u = joinSep "&" (L.map formatQueryPair))
      ∧ (∀ v : Url, v.query_pairs.Perm u.query_pairs →
          canonical_query_string v = canonical_query_string u)
      ∧ (u.query_pairs = [] → canonical_query_string u = "") := by
  refine ⟨⟨List.insertionSort pairLe u.query_pairs, List.sorted_insertionSort pairLe _,
    List.perm_insertionSort pairLe _, rfl⟩, ?_, ?_⟩
  · intro v hperm
    unfold canonical_query_string
    have e : List.insertionSort pairLe v.query_pairs
        = List.insertionSort pairLe u.query_pairs :=
      List.eq_of_perm_of_sorted
        ((List.perm_insertionSort pairLe v.query_pairs).trans
          (hperm.trans (List.perm_insertionSort pairLe u.query_pairs).symm))
        (List.sorted_insertionSort pairLe _) (List.sorted_insertionSort pairLe _)
    rw [e]
  · intro h
    unfold canonical_query_string
    rw [h]
    rfl

/-- Witness for C6: permuting the concrete query `b=2&a=%2F1&a=1` leaves the
canonical query string unchanged. -/
theorem canonical_query_string_sort_spec_witness :
    canonical_query_string qUrlB = canonical_query_string qUrlA :=
  (canonical_query_string_sort_spec qUrlA).2.1 qUrlB (by decide)

/-- Shared: two unwrappings of the same `some` pair agree, giving the
body-independence shape. -/
theorem same_some_pair {x p1 p2 : Response × List OutRequest}
    (h1 : some x = some p1) (h2 : some x = some p2) :
    p1.2.map eraseBody = p2.2.map eraseBody ∧ (p1.2 = [] → p1.1 = p2.1 ∧ p2.2 = []) := by
  injection h1 with e1
  injection h2 with e2
  rw [← e1, ← e2]
  exact ⟨rfl, fun h0 => ⟨rfl, h0⟩⟩

/-- Shared equation: a proxy URL without host is rejected. -/
theorem verify_host_none (env : Env) (req : InboundRequest) (r : SignRequest)
    (info : SignatureInfo) (k : String) (hhost : r.proxy_url.host = none) :
    verify_and_dispatch env req r info k = some (bad_request, []) := by
  unfold verify_and_dispatch
  simp only [hhost]

/-- Shared equation: an unparseable proxy URI is rejected. -/
theorem verify_uri_none (env : Env) (req : InboundRequest) (r : SignRequest)
    (info : SignatureInfo) (k host : String) (hhost : r.proxy_url.host = some host)
    (huri : env.uriFromStr r.proxy_url.asStr = none) :
    verify_and_dispatch env req r info k = some (bad_request, []) := by
  unfold verify_and_dispatch
  simp only [hhost, huri]

/-- Shared equation: the canonicalization panic propagates. -/
theorem verify_panic (env : Env) (req : InboundRequest) (r : SignRequest)
    (info : SignatureInfo) (k host u : String) (hhost : r.proxy_url.host = some host)
    (huri : env.uriFromStr r.proxy_url.asStr = some u)
    (hsig : get_signature k r = none) :
    verify_and_dispatch env req r info k = none := by
  unfold verify_and_dispatch
  simp only [hhost, huri, hsig]

/-- Shared equation: a signature-computation error yields 500. -/
theorem verify_sig_err (env : Env) (req : InboundRequest) (r : SignRequest)
    (info : SignatureInfo) (k host u : String) (e : Unit)
    (hhost : r.proxy_url.host = some host)
    (huri : env.uriFromStr r.proxy_url.asStr = some u)
    (hsig : get_signature k r = some (.error e)) :
    verify_and_dispatch env req r info k = some (internal_server, []) := by
  unfold verify_and_dispatch
  simp only [hhost, huri, hsig]

/-- Shared equation: with a computed signature, the outcome is decided by the
comparison with the declared one. -/
theorem verify_sig_ok (env : Env) (req : InboundRequest) (r : SignRequest)
    (info : SignatureInfo) (k host u a : String)
    (hhost : r.proxy_url.host = some host)
    (huri : env.uriFromStr r.proxy_url.asStr = some u)
    (hsig : get_signature k r = some (.ok a)) :
    verify_and_dispatch env req r info k
      = if info.signature = a then some (dispatch_step env (rewritten req host u))
        else some (bad_request, []) := by
  unfold verify_and_dispatch
  simp only [hhost, huri, hsig]

/-- Shared equation: dispatch with an upstream response passes it through. -/
theorem dispatch_ok (env : Env) (out : OutRequest) (resp : Response)
    (hu : env.upstream out = .ok resp) : dispatch_step env out = (resp, [out]) := by
  unfold dispatch_step
  simp only [hu]

/-- Shared equation: dispatch with a transport error yields 502. -/
theorem dispatch_err (env : Env) (out : OutRequest) (e : String)
    (hu : env.upstream out = .error e) : dispatch_step env out = (bad_gateway e, [out]) := by
  unfold dispatch_step
  simp only [hu]

/-- Shared equation: an envelope parse failure yields 400. -/
theorem route_parse_err (env : Env) (req : InboundRequest)
    (hfr : env.from_req req.uri req.headers = .error ()) :
    route_gateway env req = some (bad_request, []) := by
  unfold route_gateway
  simp only [hfr]

/-- Shared equation: a secret-store failure yields 500. -/
theorem route_store_err (env : Env) (req : InboundRequest) (r : SignRequest)
    (info : SignatureInfo)
    (hfr : env.from_req req.uri req.headers = .ok (r, info))
    (hsec : env.get_secret info.id = .error ()) :
    route_gateway env req = some (internal_server, []) := by
  unfold route_gateway
  simp only [hfr, hsec]

/-- Shared equation: an unknown principal yields 400. -/
theorem route_unknown_principal (env : Env) (req : InboundRequest) (r : SignRequest)
    (info : SignatureInfo)
    (hfr : env.from_req req.uri req.headers = .ok (r, info))
    (hsec : env.get_secret info.id = .ok none) :
    route_gateway env req = some (bad_request, []) := by
  unfold route_gateway
  simp only [hfr, hsec]

/-- Shared equation: a body-step failure returns its response. -/
theorem route_body_err (env : Env) (req : InboundRequest) (r : SignRequest)
    (info : SignatureInfo) (k : String) (resp : Response)
    (hfr : env.from_req req.uri req.headers = .ok (r, info))
    (hsec : env.get_secret info.id = .ok (some k))
    (hab : attach_body env req r info = .error resp) :
    route_gateway env req = some (resp, []) := by
  unfold route_gateway
  simp only [hfr, hsec, hab]

/-- Shared equation: after a successful body step, the handler continues with
`verify_and_dispatch`. -/
theorem route_main (env : Env) (req : InboundRequest) (r r2 : SignRequest)
    (info : SignatureInfo) (k : String) (req2 : InboundRequest)
    (hfr : env.from_req req.uri req.headers = .ok (r, info))
    (hsec : env.get_secret info.id = .ok (some k))
    (hab : attach_body env req r info = .ok (r2, req2)) :
    route_gateway env req = verify_and_dispatch env req2 r2 info k := by
  unfold route_gateway
  simp only [hfr, hsec, hab]

/-- Claim C10: when the envelope declares `X-Sup-Body=false`, the handler
skips the body step entirely — the `SignRequest` keeps its parsed (`none`)
body, no `Content-Length` parse and no body read occur (the flow goes
straight to `verify_and_dispatch`, and the outcome is independent of the body
reader), the accept/reject outcome is identical for any two inbound bodies,
and on acceptance the original body is forwarded unchanged. -/
theorem body_noninterference_when_disabled (env : Env) (uri : String) (hs : HeaderMap)
    (r : SignRequest) (info : SignatureInfo) (k : String)
    (hfr : env.from_req uri hs = .ok (r, info))
    (hsec : env.get_secret info.id = .ok (some k))
    (hib : info.include_body = false)
    (hrb : r.body = none) :
    (∀ b, attach_body env ⟨uri, hs, b⟩ r info = .ok (r, ⟨uri, hs, b⟩))
      ∧ (∀ b, route_gateway env ⟨uri, hs, b⟩ = verify_and_dispatch env ⟨uri, hs, b⟩ r info k)
      ∧ (∀ b f, route_gateway {env with body_to_string := f} ⟨uri, hs, b⟩
          = route_gateway env ⟨uri, hs, b⟩)
      ∧ (∀ b1 b2,
          (route_gateway env ⟨uri, hs, b1⟩ = none ↔ route_gateway env ⟨uri, hs, b2⟩ = none)
          ∧ ∀ p1 p2, route_gateway env ⟨uri, hs, b1⟩ = some p1 →
              route_gateway env ⟨uri, hs, b2⟩ = some p2 →
              p1.2.map eraseBody = p2.2.map eraseBody
                ∧ (p1.2 = [] → p1.1 = p2.1 ∧ p2.2 = []))
      ∧ (∀ b resp out, route_gateway env ⟨uri, hs, b⟩ = some (resp, [out]) → out.body = b) := by
  have hab : ∀ b, attach_body env ⟨uri, hs, b⟩ r info = .ok (r, ⟨uri, hs, b⟩) := by
    intro b
    unfold attach_body
    rw [hib]
    rfl
  have hrg : ∀ b, route_gateway env ⟨uri, hs, b⟩
      = verify_and_dispatch env ⟨uri, hs, b⟩ r info k := by
    intro b
    exact route_main env _ r r info k _ hfr hsec (hab b)
  refine ⟨hab, hrg, ?_, ?_, ?_⟩
  · intro b f
    have hab2 : attach_body {env with body_to_string := f} ⟨uri, hs, b⟩ r info
        = .ok (r, ⟨uri, hs, b⟩) := by
      unfold attach_body
      rw [hib]
      rfl
    have hrg2 : route_gateway {env with body_to_string := f} ⟨uri, hs, b⟩
        = verify_and_dispatch {env with body_to_string := f} ⟨uri, hs, b⟩ r info k :=
      route_main _ _ r r info k _ hfr hsec hab2
    rw [hrg2, hrg b]
    rfl
  · intro b1 b2
    rw [hrg b1, hrg b2]
    cases hhost : r.proxy_url.host with
    | none =>
      rw [verify_host_none env _ r info k hhost, verify_host_none env _ r info k hhost]
      exact ⟨Iff.rfl, fun p1 p2 h1 h2 => same_some_pair h1 h2⟩
    | some host =>
      cases huri : env.uriFromStr r.proxy_url.asStr with
      | none =>
        rw [verify_uri_none env _ r info k host hhost huri,
          verify_uri_none env _ r info k host hhost huri]
        exact ⟨Iff.rfl, fun p1 p2 h1 h2 => same_some_pair h1 h2⟩
      | some u =>
        cases hsig : get_signature k r with
        | none =>
          rw [verify_panic env _ r info k host u hhost huri hsig,
            verify_panic env _ r info k host u hhost huri hsig]
          exact ⟨Iff.rfl, fun p1 p2 h1 h2 => Option.noConfusion h1⟩
        | some ex =>
          cases ex with
          | error e =>
            rw [verify_sig_err env _ r info k host u e hhost huri hsig,
              verify_sig_err env _ r info k host u e hhost huri hsig]
            exact ⟨Iff.rfl, fun p1 p2 h1 h2 => same_some_pair h1 h2⟩
          | ok a =>
            rw [verify_sig_ok env _ r info k host u a hhost huri hsig,
              verify_sig_ok env _ r info k host u a hhost huri hsig]
            by_cases heq : info.signature = a
            · rw [if_pos heq, if_pos heq]
              constructor
              · simp
              · intro p1 p2 h1 h2
                injection h1 with e1
                injection h2 with e2
                rw [← e1, ← e2]
                cases hu1 : env.upstream (rewritten ⟨uri, hs, b1⟩ host u) with
                | ok r1 =>
                  rw [dispatch_ok env _ r1 hu1]
                  cases hu2 : env.upstream (rewritten ⟨uri, hs, b2⟩ host u) with
                  | ok r2 =>
                    rw [dispatch_ok env _ r2 hu2]
                    exact ⟨rfl, fun h0 => List.noConfusion h0⟩
                  | error e2 =>
                    rw [dispatch_err env _ e2 hu2]
                    exact ⟨rfl, fun h0 => List.noConfusion h0⟩
                | error e1 =>
                  rw [dispatch_err env _ e1 hu1]
                  cases hu2 : env.upstream (rewritten ⟨uri, hs, b2⟩ host u) with
                  | ok r2 =>
                    rw [dispatch_ok env _ r2 hu2]
                    exact ⟨rfl, fun h0 => List.noConfusion h0⟩
                  | error e2 =>
                    rw [dispatch_err env _ e2 hu2]
                    exact ⟨rfl, fun h0 => List.noConfusion h0⟩
            · rw [if_neg heq, if_neg heq]
              exact ⟨Iff.rfl, fun p1 p2 h1 h2 => same_some_pair h1 h2⟩
  · intro b resp out h
    rw [hrg b] at h
    cases hhost : r.proxy_url.host with
    | none =>
      rw [verify_host_none env _ r info k hhost] at h
      injection h with h1
      injection h1 with _ h2
      exact List.noConfusion h2.symm
    | some host =>
      cases huri : env.uriFromStr r.proxy_url.asStr with
      | none =>
        rw [verify_uri_none env _ r info k host hhost huri] at h
        injection h with h1
        injection h1 with _ h2
        exact List.noConfusion h2.symm
      | some u =>
        cases hsig : get_signature k r with
        | none =>
          rw [verify_panic env _ r info k host u hhost huri hsig] at h
          exact Option.noConfusion h
        | some ex =>
          cases ex with
          | error e =>
            rw [verify_sig_err env _ r info k host u e hhost huri hsig] at h
            injection h with h1
            injection h1 with _ h2
            exact List.noConfusion h2.symm
          | ok a =>
            rw [verify_sig_ok env _ r info k host u a hhost huri hsig] at h
            by_cases heq : info.signature = a
            · rw [if_pos heq] at h
              cases hu : env.upstream (rewritten ⟨uri, hs, b⟩ host u) with
              | ok r2 =>
                rw [dispatch_ok env _ r2 hu] at h
                injection h with h1
                injection h1 with _ h2
                injection h2.symm with h4 h5
                rw [h4]
                rfl
              | error e =>
                rw [dispatch_err env _ e hu] at h
                injection h with h1
                injection h1 with _ h2
                injection h2.symm with h4 h5
                rw [h4]
                rfl
            · rw [if_neg heq] at h
              injection h with h1
              injection h1 with _ h2
              exact List.noConfusion h2.symm

/-- Witness for C10: in the concrete no-body scenario, two different inbound
bodies are both accepted, the dispatched requests differ only in the body,
and each forwarded body is the original. -/
theorem body_noninterference_when_disabled_witness :
    (route_gateway rtEnv ⟨"inbound", [], "b1"⟩ = none
        ↔ route_gateway rtEnv ⟨"inbound", [], "b2"⟩ = none)
      ∧ ∀ b resp out, route_gateway rtEnv ⟨"inbound", [], b⟩ = some (resp, [out]) →
          out.body = b :=
  let h := body_noninterference_when_disabled rtEnv "inbound" [] rtSign rtInfo "shh"
    rfl rfl rfl rfl
  ⟨(h.2.2.2.1 "b1" "b2").1, fun b => h.2.2.2.2 b⟩

/-- Shared equation: with body signing on, a missing or unparseable
`Content-Length` fails the body step with 400. -/
theorem attach_cl_err (env : Env) (req : InboundRequest) (r : SignRequest)
    (info : SignatureInfo) (hib : info.include_body = true)
    (hcl : parse_content_length req = .error ()) :
    attach_body env req r info = .error bad_request := by
  unfold attach_body
  rw [hib, if_pos rfl]
  simp only [hcl]

/-- Shared equation: with body signing on, a failing body read fails the body
step with 400. -/
theorem attach_read_err (env : Env) (req : InboundRequest) (r : SignRequest)
    (info : SignatureInfo) (n : Nat) (hib : info.include_body = true)
    (hcl : parse_content_length req = .ok n)
    (hread : env.body_to_string req.body n = .error ()) :
    attach_body env req r info = .error bad_request := by
  unfold attach_body
  rw [hib, if_pos rfl]
  simp only [hcl, hread]

/-- Claim C5: the error-to-status mapping of `route_gateway` — 400 with empty
body on envelope parse failure, unknown principal, missing or non-numeric
`Content-Length`, body read failure, invalid proxy URL (missing host or
unparseable URI), or signature mismatch; 500 with empty body on secret-store
error or signature-computation error; 502 carrying the transport error's
description on upstream failure; and verbatim passthrough of an upstream
response. -/
theorem route_gateway_error_mapping (env : Env) (req : InboundRequest) :
    (env.from_req req.uri req.headers = .error () →
        route_gateway env req = some (bad_request, []))
      ∧ (∀ r info, env.from_req req.uri req.headers = .ok (r, info) →
          (env.get_secret info.id = .error () →
              route_gateway env req = some (internal_server, []))
          ∧ (env.get_secret info.id = .ok none →
              route_gateway env req = some (bad_request, []))
          ∧ (∀ k, env.get_secret info.id = .ok (some k) →
              (info.include_body = true → parse_content_length req = .error () →
                  route_gateway env req = some (bad_request, []))
              ∧ (∀ n, info.include_body = true → parse_content_length req = .ok n →
                  env.body_to_string req.body n = .error () →
                  route_gateway env req = some (bad_request, []))
              ∧ (∀ r2 req2, attach_body env req r info = .ok (r2, req2) →
                  (r2.proxy_url.host = none →
                      route_gateway env req = some (bad_request, []))
                  ∧ (∀ host, r2.proxy_url.host = some host →
                      (env.uriFromStr r2.proxy_url.asStr = none →
                          route_gateway env req = some (bad_request, []))
                      ∧ (∀ u, env.uriFromStr r2.proxy_url.asStr = some u →
                          (∀ e, get_signature k r2 = some (.error e) →
                              route_gateway env req = some (internal_server, []))
                          ∧ (∀ a, get_signature k r2 = some (.ok a) →
                              (info.signature ≠ a →
                                  route_gateway env req = some (bad_request, []))
                              ∧ (info.signature = a →
                                  (∀ e, env.upstream (rewritten req2 host u) = .error e →
                                      route_gateway env req
                                        = some (bad_gateway e, [rewritten req2 host u]))
                                  ∧ (∀ resp,
                                      env.upstream (rewritten req2 host u) = .ok resp →
                                      route_gateway env req
                                        = some (resp, [rewritten req2 host u]))))))))) := by
  refine ⟨fun hfr => route_parse_err env req hfr, fun r info hfr => ⟨
    fun hsec => route_store_err env req r info hfr hsec,
    fun hsec => route_unknown_principal env req r info hfr hsec,
    fun k hsec => ⟨
      fun hib hcl => route_body_err env req r info k bad_request hfr hsec
        (attach_cl_err env req r info hib hcl),
      fun n hib hcl hread => route_body_err env req r info k bad_request hfr hsec
        (attach_read_err env req r info n hib hcl hread),
      fun r2 req2 hab => ⟨
        fun hh => by
          rw [route_main env req r r2 info k req2 hfr hsec hab,
            verify_host_none env req2 r2 info k hh],
        fun host hh => ⟨
          fun huri => by
            rw [route_main env req r r2 info k req2 hfr hsec hab,
              verify_uri_none env req2 r2 info k host hh huri],
          fun u huri => ⟨
            fun e hsig => by
              rw [route_main env req r r2 info k req2 hfr hsec hab,
                verify_sig_err env req2 r2 info k host u e hh huri hsig],
            fun a hsig => ⟨
              fun hne => by
                rw [route_main env req r r2 info k req2 hfr hsec hab,
                  verify_sig_ok env req2 r2 info k host u a hh huri hsig, if_neg hne],
              fun heq => ⟨
                fun e hup => by
                  rw [route_main env req r r2 info k req2 hfr hsec hab,
                    verify_sig_ok env req2 r2 info k host u a hh huri hsig, if_pos heq,
                    dispatch_err env (rewritten req2 host u) e hup],
                fun resp hup => by
                  rw [route_main env req r r2 info k req2 hfr hsec hab,
                    verify_sig_ok env req2 r2 info k host u a hh huri hsig, if_pos heq,
                    dispatch_ok env (rewritten req2 host u) resp hup]⟩⟩⟩⟩⟩⟩⟩⟩

/-- Witness for C5: the parse-failure case of the mapping at a concrete
environment — the handler answers 400 with an empty body. -/
theorem route_gateway_error_mapping_witness :
    route_gateway noEnv rtReq = some (bad_request, []) :=
  (route_gateway_error_mapping noEnv rtReq).1 rfl
